import Mathlib

/-!
Verification of the libdnf keyring subsystem (`libdnf/dnf-keyring.cpp`).

The rpm crypto library (pgpParsePkts, rpmPubkeyNew, rpmKeyringLookup,
rpmKeyringAddKey, rpmcliVerifySignatures, headerGet, pgpPrtPkts, ...) is an
external collaborator; its observable outcomes for one call are packaged in
an environment record, and the keyring itself is modelled as the list of key
digests it holds (rpm key ids), with lookup = membership and add returning
rpm's documented codes (0 added, 1 already present, negative failure).
The control flow of the three exported functions is embedded faithfully,
branch by branch, including the goto-out cleanup structure.
-/

/-! ## rpm return codes and constants (from rpm headers) -/

/-- rpmRC: RPMRC_OK = 0. -/
def RPMRC_OK : Int := 0

/-- rpmRC: RPMRC_NOTFOUND = 1. -/
def RPMRC_NOTFOUND : Int := 1

/-- pgpArmor: PGPARMOR_PUBKEY (the only armor type accepted for import);
negative pgpArmor values are parse errors. -/
def PGPARMOR_PUBKEY : Int := 2

/-! ## Error model

`g_set_error` with domain DNF_ERROR and one of the codes used in
dnf-keyring.cpp, or a GLib file error propagated by g_file_get_contents. -/

/-- A GError as set on the paths of dnf-keyring.cpp: the DNF_ERROR code plus
the formatted message, or a GLib file error from g_file_get_contents. -/
inductive DnfError where
  | gpgSignatureInvalid (msg : String)
  | fileInvalid (msg : String)
  | internalError (msg : String)
  | glibFileError (msg : String)
deriving DecidableEq

/-! ## Keyring model -/

/-- An rpmPubkey handle: its key id (the digest rpm derives from it) and
whether rpmKeyringAddKey accepts it (a corrupt packet makes add fail). -/
structure PubKey where
  id : Nat
  valid : Bool
deriving DecidableEq

/-- The rpm keyring: the ids of the keys it currently holds. -/
abbrev Keyring := List Nat

/-- rpmKeyringLookup: RPMRC_OK when the digest's signing key is in the
keyring, RPMRC_NOTFOUND otherwise. -/
def rpmKeyringLookup (keyring : Keyring) (digId : Nat) : Int :=
  if digId ∈ keyring then RPMRC_OK else RPMRC_NOTFOUND

/-- rpmKeyringAddKey: 0 on success, 1 if the key was already in the keyring,
negative on failure; returns the resulting keyring alongside. -/
def rpmKeyringAddKey (keyring : Keyring) (key : PubKey) : Int × Keyring :=
  if ¬ key.valid then (-1, keyring)
  else if key.id ∈ keyring then (1, keyring)
  else (0, key.id :: keyring)

/-! ## dnf_keyring_add_public_key -/

/-- Everything one call of dnf_keyring_add_public_key observes from the
filesystem and the pgp parser for its input file: the two g_file_test
results, whether g_file_get_contents succeeds (and the GLib message when it
does not), the pgpArmor value returned by pgpParsePkts, the rpmPubkey built
by rpmPubkeyNew (none when it fails), and the subkeys from rpmGetSubkeys. -/
structure KeyFileEnv where
  filename : String
  is_regular : Bool
  is_symlink : Bool
  read_ok : Bool
  read_err_msg : String
  armor : Int
  pubkey : Option PubKey
  subkeys : List PubKey
deriving DecidableEq

/-- Result of one dnf_keyring_add_public_key call: the gboolean return, the
GError (none iff not set), the keyring afterwards, and whether the file's
contents were read (g_file_get_contents reached). -/
structure AddResult where
  ret : Bool
  err : Option DnfError
  keyring : Keyring
  file_read : Bool
deriving DecidableEq

/-- The subkey loop of dnf_keyring_add_public_key: add each subkey in order;
the first add that returns a negative rc sets the error and jumps to out,
leaving everything already added in place. -/
def add_subkeys_loop (keyring : Keyring) (filename : String) :
    List PubKey → Bool × Option DnfError × Keyring
  | [] => (true, none, keyring)
  | sk :: rest =>
    let r := rpmKeyringAddKey keyring sk
    if r.1 < 0 then
      (false,
       some (.gpgSignatureInvalid ("failed to add subkeys for " ++ filename ++ " to rpmdb")),
       r.2)
    else add_subkeys_loop r.2 filename rest

/-- dnf_keyring_add_public_key (dnf-keyring.cpp): symlink/non-regular filter,
read, armor strip and parse, pubkey construction, idempotent lookup, primary
add, subkey loop. -/
def dnf_keyring_add_public_key (keyring : Keyring) (env : KeyFileEnv) : AddResult :=
  if ¬ env.is_regular then ⟨true, none, keyring, false⟩
  else if env.is_symlink then ⟨true, none, keyring, false⟩
  else if ¬ env.read_ok then
    ⟨false, some (.glibFileError env.read_err_msg), keyring, true⟩
  else if env.armor < 0 then
    ⟨false, some (.gpgSignatureInvalid ("failed to parse PKI file " ++ env.filename)),
     keyring, true⟩
  else if env.armor ≠ PGPARMOR_PUBKEY then
    ⟨false, some (.gpgSignatureInvalid ("PKI file " ++ env.filename ++ " is not a public key")),
     keyring, true⟩
  else
    match env.pubkey with
    | none =>
      ⟨false, some (.gpgSignatureInvalid ("failed to parse public key for " ++ env.filename)),
       keyring, true⟩
    | some pubkey =>
      if rpmKeyringLookup keyring pubkey.id = RPMRC_OK then
        ⟨true, none, keyring, true⟩
      else
        let r := rpmKeyringAddKey keyring pubkey
        if r.1 = 1 then ⟨true, none, r.2, true⟩
        else if r.1 < 0 then
          ⟨false, some (.gpgSignatureInvalid ("failed to add public key " ++ env.filename ++ " to rpmdb")),
           r.2, true⟩
        else
          let s := add_subkeys_loop r.2 env.filename env.subkeys
          ⟨s.1, s.2.1, s.2.2, true⟩

/-! ## dnf_keyring_add_public_keys -/

/-- The message carried by a DnfError (GError->message). -/
def DnfError.message : DnfError → String
  | .gpgSignatureInvalid msg => msg
  | .fileInvalid msg => msg
  | .internalError msg => msg
  | .glibFileError msg => msg

/-- Outcome of g_dir_open on the trust directory /etc/pki/rpm-gpg: the
directory does not exist (G_FILE_ERROR, G_FILE_ERROR_NOENT), some other
open error with its GLib message, or the directory opened with the
per-file import environments of its entries in enumeration order. -/
inductive DirOpenResult where
  | noent
  | openError (msg : String)
  | opened (entries : List KeyFileEnv)
deriving DecidableEq

/-- Result of one dnf_keyring_add_public_keys call: the gboolean return, the
keyring afterwards, and the messages passed to g_warning. -/
structure LoadResult where
  ret : Bool
  keyring : Keyring
  warnings : List String
deriving DecidableEq

/-- The enumeration loop of dnf_keyring_add_public_keys: import each entry;
an import failure is logged as a warning (the GError message) and the loop
continues with the next entry. -/
def add_public_keys_loop (keyring : Keyring) :
    List KeyFileEnv → Keyring × List String
  | [] => (keyring, [])
  | e :: rest =>
    let r := dnf_keyring_add_public_key keyring e
    let t := add_public_keys_loop r.keyring rest
    if r.ret then (t.1, t.2)
    else (t.1, (match r.err with | some ge => ge.message | none => "") :: t.2)

/-- dnf_keyring_add_public_keys (dnf-keyring.cpp): open the trust directory;
a NOENT failure returns TRUE silently, any other open failure warns and
returns TRUE, otherwise every entry is imported with per-file failures
logged as warnings, and the call returns TRUE. -/
def dnf_keyring_add_public_keys (keyring : Keyring) (dir : DirOpenResult) : LoadResult :=
  match dir with
  | .noent => ⟨true, keyring, []⟩
  | .openError msg => ⟨true, keyring, [msg]⟩
  | .opened entries =>
    let t := add_public_keys_loop keyring entries
    ⟨true, t.1, t.2⟩

/-! ## The scoped rpmlog capture used by dnf_keyring_check_untrusted_file

GStrings are byte buffers; they are modelled as List Char. -/

/-- rpmcliverifysignatures_log_handler_cb (dnf-keyring.cpp): lazily create
the GString, join to existing text with ": ", append the record message,
then drop the trailing newline rpm puts on each record. -/
def rpmcliverifysignatures_log_handler_cb (string : Option (List Char))
    (msg : List Char) : Option (List Char) :=
  let s := string.getD []
  let s := if s.length > 0 then s ++ (": ").toList else s
  let s := s ++ msg
  let s := if s.length > 0 then s.dropLast else s
  some s

/-- The rpm_error GString after the log callback has received every record
message emitted during rpmcliVerifySignatures (none when nothing was
logged: the GString is only created inside the callback). -/
def capture_logs (msgs : List (List Char)) : Option (List Char) :=
  msgs.foldl rpmcliverifysignatures_log_handler_cb none

/-- g_path_get_basename: "." for the empty path, otherwise strip trailing
slashes ("/" if nothing remains) and return the component after the last
slash. -/
def g_path_get_basename (path : String) : String :=
  let cs := path.toList
  if cs = [] then "."
  else
    let ds := (cs.reverse.dropWhile (fun c => c = '/')).reverse
    if ds = [] then "/"
    else String.mk ((ds.reverse.takeWhile (fun c => c ≠ '/')).reverse)

/-! ## dnf_keyring_check_untrusted_file -/

/-- Which signature header field supplied the digest packet: RPMTAG_RSAHEADER
or the RPMTAG_DSAHEADER fallback. -/
inductive DigestSource where
  | rsa
  | dsa
deriving DecidableEq

/-- One rpmlogSetCallback call: install the capture callback, or reset to no
sink (rpmlogSetCallback(NULL, NULL)). -/
inductive CbAction where
  | install
  | clear
deriving DecidableEq

/-- Everything one call of dnf_keyring_check_untrusted_file observes from
rpm for its input file: Fopen/Ferror outcomes (with Fstrerror text),
whether rpmtsSetKeyring succeeds (returns >= 0), whether
rpmcliVerifySignatures fails (returns nonzero) and the record messages it
logs through the installed callback, whether rpmReadPackageFile returns
RPMRC_OK, which signature header fields headerGet finds, whether pgpPrtPkts
succeeds (returns 0), and the signing key id of the decoded digest. -/
structure CheckEnv where
  filename : String
  fopen_ok : Bool
  ferror : Bool
  fstrerror : String
  set_keyring_ok : Bool
  verify_fails : Bool
  log_lines : List (List Char)
  read_pkg_ok : Bool
  rsa_present : Bool
  dsa_present : Bool
  prt_pkts_ok : Bool
  signing_key_id : Nat
deriving DecidableEq

/-- Result of one dnf_keyring_check_untrusted_file call: the gboolean
return, the GError, which header field the digest came from (none when
extraction was never completed), and the sequence of rpmlogSetCallback
calls the function performed. -/
structure CheckResult where
  ret : Bool
  err : Option DnfError
  digest_source : Option DigestSource
  cb_actions : List CbAction
deriving DecidableEq

/-- The out: label of dnf_keyring_check_untrusted_file: every path ends
here, and it always calls rpmlogSetCallback(NULL, NULL) before returning. -/
def check_out (ret : Bool) (err : Option DnfError) (src : Option DigestSource)
    (acts : List CbAction) : CheckResult :=
  ⟨ret, err, src, acts ++ [CbAction.clear]⟩

/-- The process-wide rpmlog callback state (some () = a sink is installed)
after a sequence of rpmlogSetCallback calls, starting from a given state. -/
def run_cb_actions (start : Option Unit) : List CbAction → Option Unit
  | [] => start
  | .install :: rest => run_cb_actions (some ()) rest
  | .clear :: rest => run_cb_actions none rest

/-- dnf_keyring_check_untrusted_file (dnf-keyring.cpp): open the file, bind
the keyring to a transaction set at signature verification level, install
the scoped log callback, run rpmcliVerifySignatures, re-read the package
header, retrofit it, extract the RSA header field with a DSA fallback
(headerGet returns 1 on success, which the code compares against
RPMRC_NOTFOUND = 1 after a cast), decode the digest packet, and look the
signing key up in the caller's keyring; every exit goes through out. -/
def dnf_keyring_check_untrusted_file (keyring : Keyring) (env : CheckEnv) : CheckResult :=
  if ¬ env.fopen_ok then
    check_out false (some (.fileInvalid ("failed to open " ++ env.filename))) none []
  else if env.ferror then
    check_out false
      (some (.fileInvalid ("failed to open " ++ env.filename ++ ": " ++ env.fstrerror))) none []
  else if ¬ env.set_keyring_ok then
    check_out false (some (.internalError "failed to set keyring")) none []
  else
    let acts := [CbAction.install]
    if env.verify_fails then
      let rpm_error := capture_logs env.log_lines
      check_out false
        (some (.gpgSignatureInvalid (env.filename ++ " could not be verified.\n" ++
          (match rpm_error with | some s => String.mk s | none => "UNKNOWN ERROR"))))
        none acts
    else if ¬ env.read_pkg_ok then
      check_out false (some (.fileInvalid (env.filename ++ " could not be verified"))) none acts
    else
      let rc1 : Int := if env.rsa_present then 1 else 0
      let rc2 : Int := if rc1 ≠ RPMRC_NOTFOUND then (if env.dsa_present then 1 else 0) else rc1
      if rc2 ≠ RPMRC_NOTFOUND then
        check_out false
          (some (.gpgSignatureInvalid ("package not signed: " ++ g_path_get_basename env.filename)))
          none acts
      else
        let src := if env.rsa_present then DigestSource.rsa else DigestSource.dsa
        if ¬ env.prt_pkts_ok then
          check_out false
            (some (.fileInvalid ("failed to parse digest header for " ++ env.filename)))
            (some src) acts
        else if rpmKeyringLookup keyring env.signing_key_id ≠ RPMRC_OK then
          check_out false
            (some (.gpgSignatureInvalid ("failed to lookup digest in keyring for " ++ env.filename)))
            (some src) acts
        else
          check_out true none (some src) acts

/-! ## Derived state functions and sample inputs -/

/-- Iterated import of the same key file: the keyring after n calls of
dnf_keyring_add_public_key on env. -/
def add_public_key_iter (env : KeyFileEnv) (keyring : Keyring) : Nat → Keyring
  | 0 => keyring
  | n + 1 => add_public_key_iter env (dnf_keyring_add_public_key keyring env).keyring n

/-- The keyring after pushing a list of keys through rpmKeyringAddKey in
order, keeping each resulting keyring. -/
def keyring_after_adds (keyring : Keyring) (keys : List PubKey) : Keyring :=
  keys.foldl (fun kr k => (rpmKeyringAddKey kr k).2) keyring

/-- The keyring after importing a list of key files in order with
dnf_keyring_add_public_key. -/
def keyring_after_imports (keyring : Keyring) (entries : List KeyFileEnv) : Keyring :=
  entries.foldl (fun kr e => (dnf_keyring_add_public_key kr e).keyring) keyring

/-- Modelled from the spec: the claim's description of the SignatureInvalid
diagnostic, the captured log lines joined newline-separated with each
line's trailing line terminator stripped. -/
def spec_newline_separated_message (msgs : List (List Char)) : List Char :=
  List.intercalate ("\n".toList) (msgs.map List.dropLast)

/-- A verification environment in which every external step succeeds and the
package carries an RSA signature header by key 7. -/
def sample_check_env : CheckEnv :=
  { filename := "pkg.rpm", fopen_ok := true, ferror := false, fstrerror := "",
    set_keyring_ok := true, verify_fails := false, log_lines := [],
    read_pkg_ok := true, rsa_present := true, dsa_present := false,
    prt_pkts_ok := true, signing_key_id := 7 }

/-- A key-file environment for a well-formed public-key file holding key 5
with one subkey 9. -/
def sample_key_env : KeyFileEnv :=
  { filename := "key.asc", is_regular := true, is_symlink := false, read_ok := true,
    read_err_msg := "", armor := PGPARMOR_PUBKEY, pubkey := some ⟨5, true⟩,
    subkeys := [⟨9, true⟩] }

/-! ## Theorems -/

/-- rpmlogSetCallback(NULL, NULL) as the last action leaves no sink
installed, whatever happened before. -/
theorem run_cb_actions_append_clear (start : Option Unit) (acts : List CbAction) :
    run_cb_actions start (acts ++ [CbAction.clear]) = none := by
  induction acts generalizing start with
  | nil => rfl
  | cons a rest ih => cases a <;> simpa [run_cb_actions] using ih _

/-- C9: on every exit path of dnf_keyring_check_untrusted_file — success,
each failure return, and the paths that fail before the sink is installed —
the process-wide rpmlog callback ends reset to no sink: replaying the
rpmlogSetCallback calls the function performed, from any starting sink
state, leaves no sink installed. -/
theorem check_untrusted_file_resets_log_callback (keyring : Keyring) (env : CheckEnv)
    (start : Option Unit) :
    run_cb_actions start (dnf_keyring_check_untrusted_file keyring env).cb_actions = none := by
  unfold dnf_keyring_check_untrusted_file
  split_ifs <;> exact run_cb_actions_append_clear start _

/-- C1: dnf_keyring_check_untrusted_file returns TRUE exactly when every
external step succeeds — in particular only when rpmcliVerifySignatures
passes AND rpmKeyringLookup finds the signing key in the supplied keyring —
and it returns FALSE exactly when a GError failure kind is set: no branch
returns TRUE without both checks, and no branch returns FALSE silently. -/
theorem check_untrusted_file_trusted_iff (keyring : Keyring) (env : CheckEnv) :
    ((dnf_keyring_check_untrusted_file keyring env).ret = true ↔
      (env.fopen_ok = true ∧ env.ferror = false ∧ env.set_keyring_ok = true ∧
       env.verify_fails = false ∧ env.read_pkg_ok = true ∧
       (env.rsa_present = true ∨ env.dsa_present = true) ∧ env.prt_pkts_ok = true ∧
       rpmKeyringLookup keyring env.signing_key_id = RPMRC_OK)) ∧
    ((dnf_keyring_check_untrusted_file keyring env).err = none ↔
      (dnf_keyring_check_untrusted_file keyring env).ret = true) := by
  unfold dnf_keyring_check_untrusted_file check_out
  split_ifs <;> simp_all [RPMRC_NOTFOUND]

/-- C2: when the earlier steps of dnf_keyring_check_untrusted_file succeed,
digest extraction uses the RSA header field whenever it is present, falls
back to the DSA field only when the RSA field is absent, and when neither
field is present the call fails with the "package not signed" GError (and
so never returns Trusted) even though the step-4 chain check reported
success. -/
theorem check_untrusted_file_rsa_dsa_fallback (keyring : Keyring) (env : CheckEnv)
    (hopen : env.fopen_ok = true) (hferr : env.ferror = false)
    (hset : env.set_keyring_ok = true) (hver : env.verify_fails = false)
    (hread : env.read_pkg_ok = true) :
    (env.rsa_present = true →
      (dnf_keyring_check_untrusted_file keyring env).digest_source = some DigestSource.rsa) ∧
    (env.rsa_present = false → env.dsa_present = true →
      (dnf_keyring_check_untrusted_file keyring env).digest_source = some DigestSource.dsa) ∧
    (env.rsa_present = false → env.dsa_present = false →
      (dnf_keyring_check_untrusted_file keyring env).ret = false ∧
      (dnf_keyring_check_untrusted_file keyring env).err =
        some (.gpgSignatureInvalid
          ("package not signed: " ++ g_path_get_basename env.filename))) := by
  unfold dnf_keyring_check_untrusted_file check_out
  split_ifs <;> simp_all [RPMRC_NOTFOUND]

/-- C2 witness: in the all-steps-succeed environment the digest comes from
the RSA field; with RSA absent it comes from the DSA field; with both
absent the call fails as "package not signed". -/
theorem check_untrusted_file_rsa_dsa_fallback_witness :
    (dnf_keyring_check_untrusted_file [7] sample_check_env).digest_source =
      some DigestSource.rsa ∧
    (dnf_keyring_check_untrusted_file [7]
      { sample_check_env with rsa_present := false, dsa_present := true }).digest_source =
      some DigestSource.dsa ∧
    (dnf_keyring_check_untrusted_file [7]
      { sample_check_env with rsa_present := false, dsa_present := false }).err =
      some (.gpgSignatureInvalid "package not signed: pkg.rpm") :=
  ⟨(check_untrusted_file_rsa_dsa_fallback [7] sample_check_env
      rfl rfl rfl rfl rfl).1 rfl,
   (check_untrusted_file_rsa_dsa_fallback [7]
      { sample_check_env with rsa_present := false, dsa_present := true }
      rfl rfl rfl rfl rfl).2.1 rfl rfl,
   by
    have h := (check_untrusted_file_rsa_dsa_fallback [7]
      { sample_check_env with rsa_present := false, dsa_present := false }
      rfl rfl rfl rfl rfl).2.2 rfl rfl
    simpa [g_path_get_basename, sample_check_env] using h.2⟩

/-- Dropping the last element of an append drops it from the nonempty right
part. -/
theorem dropLast_append_ne_nil {α : Type} (a m : List α) (h : m ≠ []) :
    (a ++ m).dropLast = a ++ m.dropLast := by
  obtain ⟨b, t, rfl⟩ := List.exists_cons_of_ne_nil h
  exact List.dropLast_append_cons

/-- intercalate peels one separator off a two-or-more element list. -/
theorem intercalate_cons_cons {α : Type} (s a b : List α) (l : List (List α)) :
    List.intercalate s (a :: b :: l) = a ++ s ++ List.intercalate s (b :: l) := by
  simp [List.intercalate, List.intersperse]

/-- One callback step on an already-started GString with a nonempty record
message: join with ": ", append, drop the record's trailing character. -/
theorem log_handler_cb_step (acc m : List Char) (hacc : acc ≠ []) (hm : m ≠ []) :
    rpmcliverifysignatures_log_handler_cb (some acc) m =
      some (acc ++ (": ").toList ++ m.dropLast) := by
  unfold rpmcliverifysignatures_log_handler_cb
  have h1 : 0 < acc.length := List.length_pos.mpr hacc
  have h2 : 0 < (acc ++ (": ").toList ++ m).length := by
    simp [List.length_append]
  simp only [Option.getD_some, if_pos h1, if_pos h2]
  rw [dropLast_append_ne_nil _ m hm]

/-- Folding the callback over nonempty record messages from a nonempty
GString yields the ": "-joined list of trailing-character-stripped
messages, headed by the existing contents. -/
theorem log_handler_cb_foldl (msgs : List (List Char)) :
    ∀ acc : List Char, acc ≠ [] → (∀ m ∈ msgs, m ≠ []) →
    msgs.foldl rpmcliverifysignatures_log_handler_cb (some acc) =
      some (List.intercalate ((": ").toList) (acc :: msgs.map List.dropLast)) := by
  induction msgs with
  | nil => intro acc hacc hm; simp [List.intercalate]
  | cons m rest ih =>
    intro acc hacc hm
    have hmne : m ≠ [] := hm m (by simp)
    have hacc2 : acc ++ (": ").toList ++ m.dropLast ≠ [] := by
      simp [hacc]
    rw [List.foldl_cons, log_handler_cb_step acc m hacc hmne,
      ih _ hacc2 (fun x hx => hm x (by simp [hx])), List.map_cons]
    cases rest with
    | nil => simp [List.intercalate]
    | cons r rrest =>
      rw [List.map_cons, intercalate_cons_cons, intercalate_cons_cons,
        intercalate_cons_cons]
      simp [List.append_assoc]

/-- The rpm_error GString built by the callback over nonempty log records is
the ": "-joined list of the records with each trailing character dropped. -/
theorem capture_logs_intercalate (msgs : List (List Char)) (hne : msgs ≠ [])
    (h : ∀ m ∈ msgs, 2 ≤ m.length) :
    capture_logs msgs =
      some (List.intercalate ((": ").toList) (msgs.map List.dropLast)) := by
  obtain ⟨m, rest, rfl⟩ := List.exists_cons_of_ne_nil hne
  have hm2 : 2 ≤ m.length := h m (by simp)
  have hmne : m ≠ [] := by
    intro hcon; rw [hcon] at hm2; simp at hm2
  have step : rpmcliverifysignatures_log_handler_cb none m = some m.dropLast := by
    unfold rpmcliverifysignatures_log_handler_cb
    have : 0 < m.length := by omega
    simp [this]
  unfold capture_logs
  rw [List.foldl_cons, step]
  cases rest with
  | nil => simp [List.intercalate]
  | cons r rrest =>
    have haccne : m.dropLast ≠ [] := by
      intro hcon
      have := List.length_dropLast m
      rw [hcon] at this
      simp at this
      omega
    rw [log_handler_cb_foldl _ _ haccne (fun x hx => by
      have := h x (by simp [hx])
      intro hcon; rw [hcon] at this; simp at this)]
    simp [List.map_cons]

/-- C3 (amended): when the chain check fails, the GError is SignatureInvalid
with message "<file> could not be verified.\n" followed by the captured log
records joined with ": " (colon and space) — not newline-separated — each
record's trailing line terminator stripped; "UNKNOWN ERROR" stands in when
nothing was logged. -/
theorem check_untrusted_file_signature_invalid_message (keyring : Keyring)
    (env : CheckEnv)
    (hopen : env.fopen_ok = true) (hferr : env.ferror = false)
    (hset : env.set_keyring_ok = true) (hver : env.verify_fails = true) :
    (dnf_keyring_check_untrusted_file keyring env).ret = false ∧
    (env.log_lines = [] →
      (dnf_keyring_check_untrusted_file keyring env).err =
        some (.gpgSignatureInvalid
          (env.filename ++ " could not be verified.\n" ++ "UNKNOWN ERROR"))) ∧
    (env.log_lines ≠ [] → (∀ m ∈ env.log_lines, 2 ≤ m.length) →
      (dnf_keyring_check_untrusted_file keyring env).err =
        some (.gpgSignatureInvalid (env.filename ++ " could not be verified.\n" ++
          String.mk (List.intercalate ((": ").toList)
            (env.log_lines.map List.dropLast))))) := by
  refine ⟨?_, ?_, ?_⟩
  · unfold dnf_keyring_check_untrusted_file check_out
    simp [hopen, hferr, hset, hver]
  · intro hnil
    unfold dnf_keyring_check_untrusted_file check_out
    simp [hopen, hferr, hset, hver, hnil, capture_logs]
  · intro hne hlen
    unfold dnf_keyring_check_untrusted_file check_out
    simp only [hopen, hferr, hset, hver, Bool.true_eq_false, not_true_eq_false,
      Bool.false_eq_true, if_false, if_true, ite_true, ite_false, not_false_eq_true]
    rw [capture_logs_intercalate env.log_lines hne hlen]

/-- C3 witness (amended): with records "alpha\n" and "beta\n" captured, the
diagnostic is "pkg.rpm could not be verified.\nalpha: beta"; with nothing
captured, it is "pkg.rpm could not be verified.\nUNKNOWN ERROR". -/
theorem check_untrusted_file_signature_invalid_message_witness :
    (dnf_keyring_check_untrusted_file []
      { sample_check_env with
        verify_fails := true
        log_lines := [("alpha\n").toList, ("beta\n").toList] }).err =
      some (.gpgSignatureInvalid "pkg.rpm could not be verified.\nalpha: beta") ∧
    (dnf_keyring_check_untrusted_file []
      { sample_check_env with verify_fails := true }).err =
      some (.gpgSignatureInvalid "pkg.rpm could not be verified.\nUNKNOWN ERROR") := by
  constructor
  · have h := (check_untrusted_file_signature_invalid_message []
      { sample_check_env with
        verify_fails := true
        log_lines := [("alpha\n").toList, ("beta\n").toList] }
      rfl rfl rfl rfl).2.2 (by simp [sample_check_env]) (by decide)
    rw [h]
    rfl
  · have h := (check_untrusted_file_signature_invalid_message []
      { sample_check_env with verify_fails := true }
      rfl rfl rfl rfl).2.1 rfl
    rw [h]
    rfl

/-- C3 counterexample: with records "alpha\n" and "beta\n" captured during a
failing chain check, the code's diagnostic joins the records with ": "
("...verified.\nalpha: beta"), which differs from the claim's
newline-separated assembly ("...verified.\nalpha\nbeta"). -/
theorem check_untrusted_file_log_message_counterexample :
    (dnf_keyring_check_untrusted_file []
      { sample_check_env with
        verify_fails := true
        log_lines := [("alpha\n").toList, ("beta\n").toList] }).err =
      some (.gpgSignatureInvalid "pkg.rpm could not be verified.\nalpha: beta") ∧
    String.mk (spec_newline_separated_message [("alpha\n").toList, ("beta\n").toList]) =
      "alpha\nbeta" ∧
    (dnf_keyring_check_untrusted_file []
      { sample_check_env with
        verify_fails := true
        log_lines := [("alpha\n").toList, ("beta\n").toList] }).err ≠
      some (.gpgSignatureInvalid ("pkg.rpm could not be verified.\n" ++
        String.mk (spec_newline_separated_message
          [("alpha\n").toList, ("beta\n").toList]))) := by
  refine ⟨?_, by decide, ?_⟩ <;> decide

/-- C4: with a regular, non-symlink, readable file, a pgpParsePkts failure
(negative armor) or a non-public-key armor type makes
dnf_keyring_add_public_key fail with the corresponding GError, and the
keyring is returned exactly as it was — nothing is added on either error
path. -/
theorem add_public_key_malformed_armor (keyring : Keyring) (env : KeyFileEnv)
    (hreg : env.is_regular = true) (hsym : env.is_symlink = false)
    (hread : env.read_ok = true) :
    (env.armor < 0 →
      dnf_keyring_add_public_key keyring env =
        ⟨false, some (.gpgSignatureInvalid ("failed to parse PKI file " ++ env.filename)),
         keyring, true⟩) ∧
    (0 ≤ env.armor → env.armor ≠ PGPARMOR_PUBKEY →
      dnf_keyring_add_public_key keyring env =
        ⟨false,
         some (.gpgSignatureInvalid ("PKI file " ++ env.filename ++ " is not a public key")),
         keyring, true⟩) := by
  unfold dnf_keyring_add_public_key
  constructor
  · intro harm
    simp [hreg, hsym, hread, harm]
  · intro hnonneg hne
    simp [hreg, hsym, hread, hne]
    omega

/-- C4 witness: a file whose armor fails to parse and a file with signature
armor both fail with the right GError and leave the keyring [5] unchanged. -/
theorem add_public_key_malformed_armor_witness :
    dnf_keyring_add_public_key [5] { sample_key_env with armor := -1 } =
      ⟨false, some (.gpgSignatureInvalid "failed to parse PKI file key.asc"), [5], true⟩ ∧
    dnf_keyring_add_public_key [5] { sample_key_env with armor := 3 } =
      ⟨false, some (.gpgSignatureInvalid "PKI file key.asc is not a public key"), [5], true⟩ := by
  constructor
  · have h := (add_public_key_malformed_armor [5] { sample_key_env with armor := -1 }
      rfl rfl rfl).1 (by decide)
    rw [h]
    rfl
  · have h := (add_public_key_malformed_armor [5] { sample_key_env with armor := 3 }
      rfl rfl rfl).2 (by decide) (by decide)
    rw [h]
    rfl

/-- C5: re-importing a key file whose parsed key digest is already looked up
successfully in the keyring is a success that changes nothing, for any
number of repeated calls: each call returns TRUE with no GError and the
keyring is unchanged. -/
theorem add_public_key_already_present_idempotent (keyring : Keyring)
    (env : KeyFileEnv) (pk : PubKey)
    (hreg : env.is_regular = true) (hsym : env.is_symlink = false)
    (hread : env.read_ok = true) (harmor : env.armor = PGPARMOR_PUBKEY)
    (hpk : env.pubkey = some pk)
    (hmem : rpmKeyringLookup keyring pk.id = RPMRC_OK) :
    ∀ n : Nat, add_public_key_iter env keyring n = keyring ∧
      dnf_keyring_add_public_key (add_public_key_iter env keyring n) env =
        ⟨true, none, keyring, true⟩ := by
  have hstep : dnf_keyring_add_public_key keyring env = ⟨true, none, keyring, true⟩ := by
    unfold dnf_keyring_add_public_key
    rw [hpk]
    simp [hreg, hsym, hread, harmor, PGPARMOR_PUBKEY, hmem]
  intro n
  induction n with
  | zero => exact ⟨rfl, hstep⟩
  | succ n ih =>
    have : add_public_key_iter env keyring (n + 1) = keyring := by
      unfold add_public_key_iter
      rw [hstep]
      exact ih.1
    refine ⟨this, ?_⟩
    rw [this]
    exact hstep

/-- C5 witness: with key 5 already in the keyring [5], three repeated
imports of its key file leave the keyring at [5], and the third call still
returns TRUE with no error. -/
theorem add_public_key_already_present_idempotent_witness :
    add_public_key_iter sample_key_env [5] 3 = [5] ∧
    dnf_keyring_add_public_key (add_public_key_iter sample_key_env [5] 3) sample_key_env =
      ⟨true, none, [5], true⟩ :=
  add_public_key_already_present_idempotent [5] sample_key_env ⟨5, true⟩
    rfl rfl rfl rfl rfl (by decide) 3

/-- C8: a path that is not a regular file, or that is a symbolic link, makes
dnf_keyring_add_public_key return TRUE with no GError, without reading the
file and with the keyring exactly as it was. -/
theorem add_public_key_skips_non_regular (keyring : Keyring) (env : KeyFileEnv)
    (h : env.is_regular = false ∨ env.is_symlink = true) :
    dnf_keyring_add_public_key keyring env = ⟨true, none, keyring, false⟩ := by
  unfold dnf_keyring_add_public_key
  rcases h with h | h
  · simp [h]
  · rcases hreg : env.is_regular with _ | _ <;> simp [hreg, h]

/-- C8 witness: a symlinked key file is skipped with success: TRUE, no
error, keyring [5] untouched, file never read. -/
theorem add_public_key_skips_non_regular_witness :
    dnf_keyring_add_public_key [5] { sample_key_env with is_symlink := true } =
      ⟨true, none, [5], false⟩ :=
  add_public_key_skips_non_regular [5] { sample_key_env with is_symlink := true }
    (Or.inr rfl)

/-- C10: when the pre-add lookup finds the primary key, or rpmKeyringAddKey
reports it already added (returns 1), dnf_keyring_add_public_key returns
TRUE immediately with the keyring unchanged — in particular none of the
file's subkeys is added. -/
theorem add_public_key_known_primary_skips_subkeys (keyring : Keyring)
    (env : KeyFileEnv) (pk : PubKey)
    (hreg : env.is_regular = true) (hsym : env.is_symlink = false)
    (hread : env.read_ok = true) (harmor : env.armor = PGPARMOR_PUBKEY)
    (hpk : env.pubkey = some pk)
    (h : rpmKeyringLookup keyring pk.id = RPMRC_OK ∨ (rpmKeyringAddKey keyring pk).1 = 1) :
    dnf_keyring_add_public_key keyring env = ⟨true, none, keyring, true⟩ := by
  unfold dnf_keyring_add_public_key
  rw [hpk]
  rcases h with h | h
  · simp [hreg, hsym, hread, harmor, PGPARMOR_PUBKEY, h]
  · have hkr : (rpmKeyringAddKey keyring pk).2 = keyring := by
      unfold rpmKeyringAddKey at h ⊢
      split_ifs at h ⊢ <;> simp_all
    simp [hreg, hsym, hread, harmor, PGPARMOR_PUBKEY, h, hkr]

/-- C10 witness: key 5 is already in the keyring [5]; re-importing its file,
which lists subkey 9, returns TRUE and leaves the keyring at [5]: subkey 9
is not added. -/
theorem add_public_key_known_primary_skips_subkeys_witness :
    dnf_keyring_add_public_key [5] sample_key_env = ⟨true, none, [5], true⟩ :=
  add_public_key_known_primary_skips_subkeys [5] sample_key_env ⟨5, true⟩
    rfl rfl rfl rfl rfl (Or.inl (by decide))

/-- rpmKeyringAddKey never removes a key already present. -/
theorem mem_rpmKeyringAddKey_mono (keyring : Keyring) (key : PubKey) (a : Nat)
    (h : a ∈ keyring) : a ∈ (rpmKeyringAddKey keyring key).2 := by
  unfold rpmKeyringAddKey
  split_ifs <;> simp [h]

/-- A valid key's id is in the keyring after rpmKeyringAddKey. -/
theorem mem_rpmKeyringAddKey_self (keyring : Keyring) (key : PubKey)
    (h : key.valid = true) : key.id ∈ (rpmKeyringAddKey keyring key).2 := by
  unfold rpmKeyringAddKey
  split_ifs <;> simp_all

/-- Pushing keys through rpmKeyringAddKey never removes a key already
present. -/
theorem mem_keyring_after_adds_mono (keys : List PubKey) :
    ∀ keyring : Keyring, ∀ a ∈ keyring, a ∈ keyring_after_adds keyring keys := by
  induction keys with
  | nil => intro kr a ha; exact ha
  | cons k rest ih =>
    intro kr a ha
    unfold keyring_after_adds
    rw [List.foldl_cons]
    exact ih _ _ (mem_rpmKeyringAddKey_mono kr k a ha)

/-- Every valid key pushed through rpmKeyringAddKey ends up present. -/
theorem mem_keyring_after_adds_of_mem (keys : List PubKey) :
    ∀ keyring : Keyring, ∀ sk ∈ keys, sk.valid = true →
      sk.id ∈ keyring_after_adds keyring keys := by
  induction keys with
  | nil => intro kr sk hsk; exact absurd hsk (List.not_mem_nil sk)
  | cons k rest ih =>
    intro kr sk hsk hv
    unfold keyring_after_adds
    rw [List.foldl_cons]
    rcases List.mem_cons.mp hsk with rfl | hsk2
    · exact mem_keyring_after_adds_mono rest _ _ (mem_rpmKeyringAddKey_self kr sk hv)
    · exact ih _ sk hsk2 hv

/-- The subkey loop stops at the first subkey whose add fails: valid
subkeys before it are added one at a time, the failure sets the
SubkeyAddError GError, and subkeys after it are not attempted. -/
theorem add_subkeys_loop_first_failure (f : String) (bad : PubKey)
    (hbad : bad.valid = false) (pre : List PubKey) :
    ∀ (keyring : Keyring) (rest : List PubKey), (∀ sk ∈ pre, sk.valid = true) →
    add_subkeys_loop keyring f (pre ++ bad :: rest) =
      (false,
       some (.gpgSignatureInvalid ("failed to add subkeys for " ++ f ++ " to rpmdb")),
       keyring_after_adds keyring pre) := by
  induction pre with
  | nil =>
    intro kr rest hpre
    unfold add_subkeys_loop rpmKeyringAddKey
    simp [hbad, keyring_after_adds]
  | cons sk pre ih =>
    intro kr rest hpre
    have hv : sk.valid = true := hpre sk (by simp)
    have hnonneg : ¬ (rpmKeyringAddKey kr sk).1 < 0 := by
      unfold rpmKeyringAddKey
      split_ifs <;> simp_all
    have : keyring_after_adds kr (sk :: pre) =
        keyring_after_adds (rpmKeyringAddKey kr sk).2 pre := by
      unfold keyring_after_adds
      rw [List.foldl_cons]
    rw [List.cons_append]
    unfold add_subkeys_loop
    simp only [if_neg hnonneg]
    rw [ih _ rest (fun x hx => hpre x (by simp [hx])), this]

/-- C6: when a well-formed key file's primary key is new and accepted but
one of its subkeys fails to add, dnf_keyring_add_public_key adds the
subkeys in order up to the failing one, returns FALSE with the
SubkeyAddError GError without attempting the remaining subkeys (the final
keyring is exactly the one after adding the primary key and the subkeys
before the failure), and the primary key and every subkey added before the
failure remain in the keyring. -/
theorem add_public_key_subkey_failure_no_rollback (keyring : Keyring)
    (env : KeyFileEnv) (pk bad : PubKey) (pre rest : List PubKey)
    (hreg : env.is_regular = true) (hsym : env.is_symlink = false)
    (hread : env.read_ok = true) (harmor : env.armor = PGPARMOR_PUBKEY)
    (hpk : env.pubkey = some pk)
    (hnotmem : pk.id ∉ keyring) (hvalid : pk.valid = true)
    (hsub : env.subkeys = pre ++ bad :: rest)
    (hpre : ∀ sk ∈ pre, sk.valid = true) (hbad : bad.valid = false) :
    dnf_keyring_add_public_key keyring env =
      ⟨false,
       some (.gpgSignatureInvalid
         ("failed to add subkeys for " ++ env.filename ++ " to rpmdb")),
       keyring_after_adds (pk.id :: keyring) pre, true⟩ ∧
    pk.id ∈ (dnf_keyring_add_public_key keyring env).keyring ∧
    ∀ sk ∈ pre, sk.id ∈ (dnf_keyring_add_public_key keyring env).keyring := by
  have hlookup : ¬ rpmKeyringLookup keyring pk.id = RPMRC_OK := by
    unfold rpmKeyringLookup RPMRC_OK RPMRC_NOTFOUND
    simp [hnotmem]
  have hadd : rpmKeyringAddKey keyring pk = (0, pk.id :: keyring) := by
    unfold rpmKeyringAddKey
    simp [hvalid, hnotmem]
  have hmain : dnf_keyring_add_public_key keyring env =
      ⟨false,
       some (.gpgSignatureInvalid
         ("failed to add subkeys for " ++ env.filename ++ " to rpmdb")),
       keyring_after_adds (pk.id :: keyring) pre, true⟩ := by
    unfold dnf_keyring_add_public_key
    rw [hpk]
    simp only [hreg, hsym, hread, harmor, PGPARMOR_PUBKEY, hlookup, hadd, hsub,
      Bool.not_true, Bool.false_eq_true, if_false, ite_true, ite_false,
      not_false_eq_true, not_true_eq_false]
    rw [add_subkeys_loop_first_failure env.filename bad hbad pre _ rest hpre]
    norm_num
  refine ⟨hmain, ?_, ?_⟩
  · rw [hmain]
    exact mem_keyring_after_adds_mono pre _ pk.id (by simp)
  · intro sk hsk
    rw [hmain]
    exact mem_keyring_after_adds_of_mem pre _ sk hsk (hpre sk hsk)

/-- C6 witness: importing a fresh key 5 whose subkey list is 9, a corrupt
20, then 11 adds 9, fails with SubkeyAddError, leaves 5 and 9 in the
keyring, and never adds 11. -/
theorem add_public_key_subkey_failure_no_rollback_witness :
    dnf_keyring_add_public_key []
      { sample_key_env with subkeys := [⟨9, true⟩, ⟨20, false⟩, ⟨11, true⟩] } =
      ⟨false, some (.gpgSignatureInvalid "failed to add subkeys for key.asc to rpmdb"),
       [9, 5], true⟩ := by
  have h := (add_public_key_subkey_failure_no_rollback []
    { sample_key_env with subkeys := [⟨9, true⟩, ⟨20, false⟩, ⟨11, true⟩] }
    ⟨5, true⟩ ⟨20, false⟩ [⟨9, true⟩] [⟨11, true⟩]
    rfl rfl rfl rfl rfl (by decide) rfl rfl (by decide) rfl).1
  rw [h]
  rfl

/-- The loader's loop pushes every entry through
dnf_keyring_add_public_key in order, whether or not earlier entries
failed. -/
theorem add_public_keys_loop_processes_all (entries : List KeyFileEnv) :
    ∀ keyring : Keyring,
      (add_public_keys_loop keyring entries).1 =
        keyring_after_imports keyring entries := by
  induction entries with
  | nil => intro kr; rfl
  | cons e rest ih =>
    intro kr
    simp only [add_public_keys_loop, keyring_after_imports, List.foldl_cons]
    split <;> simpa [keyring_after_imports] using ih _

/-- C7: dnf_keyring_add_public_keys always returns TRUE: a missing trust
directory succeeds silently with the keyring untouched and nothing warned,
any other directory-open error is warned but the call still succeeds with
the keyring untouched, and with an open directory every entry is imported
in order — per-file failures never stop the loop. -/
theorem add_public_keys_never_fails (keyring : Keyring) (dir : DirOpenResult)
    (msg : String) (entries : List KeyFileEnv) :
    (dnf_keyring_add_public_keys keyring dir).ret = true ∧
    dnf_keyring_add_public_keys keyring DirOpenResult.noent =
      ⟨true, keyring, []⟩ ∧
    dnf_keyring_add_public_keys keyring (DirOpenResult.openError msg) =
      ⟨true, keyring, [msg]⟩ ∧
    (dnf_keyring_add_public_keys keyring (DirOpenResult.opened entries)).keyring =
      keyring_after_imports keyring entries := by
  refine ⟨?_, rfl, rfl, add_public_keys_loop_processes_all entries keyring⟩
  cases dir <;> rfl
